import Mathlib

/-!
Verification development for the `amazon-rds-init-cdk` repository.

Part 1 embeds the Lambda initialization handler
(`demos/rds-init-fn-code/index.js`) as a pure function over an explicit
environment that supplies the outcomes of the external effects (secret
store lookup, JSON parsing, database connection/query, script file read).
Part 2 embeds the claim-relevant computations of the CDK construct
(`lib/resource-initializer.ts`): the Lambda memory size default, the
invocation payload serialization, the physical-resource-id hash and the
custom-resource timeout.
-/

namespace RdsInit

/-- JavaScript-style error object: the code only observes `err.message`. -/
structure JsError where
  message : String
deriving DecidableEq, Repr

/-- Small JSON-style value universe for the data flowing through the
handler (events, parsed secrets, query results). -/
inductive JsValue where
  | vNull : JsValue
  | vBool : Bool → JsValue
  | vNum : Int → JsValue
  | vStr : String → JsValue
  | vArr : List JsValue → JsValue
  | vObj : List (String × JsValue) → JsValue

/-- A possibly-undefined JavaScript value: `none` models `undefined`. -/
abbrev JsOpt := Option JsValue

/-- Property lookup on a JavaScript value: returns the field of an object
(first binding wins), `undefined` for a missing field or a primitive. -/
def jsGet : JsValue → String → JsOpt
  | .vObj fs, k => (fs.find? (fun kv => kv.1 == k)).map (fun kv => kv.2)
  | _, _ => none

/-- Property access `v.k` as the handler performs it: throws a TypeError
when `v` is `undefined` or `null`, otherwise reads the field (possibly
`undefined`). Destructuring `const \x7b k \x7d = v` has the same semantics. -/
def jsMember (v : JsOpt) (k : String) : Except JsError JsOpt :=
  match v with
  | none => .error ⟨"Cannot read properties of undefined (reading " ++ k ++ ")"⟩
  | some .vNull => .error ⟨"Cannot read properties of null (reading " ++ k ++ ")"⟩
  | some w => .ok (jsGet w k)

/-- Destructuring `const \x7b password, username, host \x7d = v` from
`index.js` line 14: one null/undefined check on `v`, then three field
reads, each possibly `undefined`. -/
def jsDestructure3 (v : JsValue) (k1 k2 k3 : String) :
    Except JsError (JsOpt × JsOpt × JsOpt) :=
  match v with
  | .vNull => .error ⟨"Cannot destructure property from null"⟩
  | w => .ok (jsGet w k1, jsGet w k2, jsGet w k3)

/-- Configuration object handed to `mysql.createConnection` at
`index.js` lines 15-20: resolved host, user, password, and
`multipleStatements: true`. -/
structure ConnConfig where
  host : JsOpt
  user : JsOpt
  password : JsOpt
  multipleStatements : Bool

/-- Structured handler response: `\x7bstatus: OK, results\x7d` or
`\x7bstatus: ERROR, err, message\x7d` (`index.js` lines 27-37). -/
inductive Response where
  | ok : JsValue → Response
  | error : JsError → String → Response

/-- Observable external actions the handler performs, in order. -/
inductive Effect where
  | secretFetched : JsOpt → Effect
  | connected : ConnConfig → Effect
  | queried : ConnConfig → String → Effect

/-- Environment supplying the outcomes of the handler's external effects:
the secret-store SDK call (`secrets.getSecretValue`), `JSON.parse` on the
secret string, the bundled script read (`fs.readFileSync`), and the
database query (connection handshake errors surface at the awaited query
callback, as with the mysql driver when `connect()` is given no
callback). -/
structure HandlerEnv where
  secretFetch : JsOpt → Except JsError String
  jsonParse : String → Except JsError JsValue
  readScript : Except JsError String
  runQuery : ConnConfig → String → Except JsError JsValue

/-- The handler of `index.js` lines 11-38, with its `try/catch` made
explicit: every failure along the way is caught and turned into
`Response.error err err.message`; a success returns `Response.ok` of the
query result. The second component is the trace of external actions. -/
def handlerRun (env : HandlerEnv) (e : JsOpt) : Response × List Effect :=
  match jsMember e "params" with
  | .error err => (.error err err.message, [])
  | .ok params =>
  match jsMember params "config" with
  | .error err => (.error err err.message, [])
  | .ok config =>
  match jsMember config "credsSecretName" with
  | .error err => (.error err err.message, [])
  | .ok credsSecretName =>
  match env.secretFetch credsSecretName with
  | .error err => (.error err err.message, [.secretFetched credsSecretName])
  | .ok secretString =>
  match env.jsonParse secretString with
  | .error err => (.error err err.message, [.secretFetched credsSecretName])
  | .ok secretVal =>
  match jsDestructure3 secretVal "password" "username" "host" with
  | .error err => (.error err err.message, [.secretFetched credsSecretName])
  | .ok (password, username, host) =>
  let conn : ConnConfig :=
    { host := host, user := username, password := password, multipleStatements := true }
  match env.readScript with
  | .error err =>
      (.error err err.message, [.secretFetched credsSecretName, .connected conn])
  | .ok sqlScript =>
  match env.runQuery conn sqlScript with
  | .error err =>
      (.error err err.message,
        [.secretFetched credsSecretName, .connected conn, .queried conn sqlScript])
  | .ok res =>
      (.ok res,
        [.secretFetched credsSecretName, .connected conn, .queried conn sqlScript])

/-- Escape one character for a JSON string literal, as
`JSON.stringify` does for the characters the payload can contain. -/
def jsonEscapeChar (c : Char) : String :=
  if c = '\"' then "\\\""
  else if c = '\\' then "\\\\"
  else if c = '\n' then "\\n"
  else if c = '\t' then "\\t"
  else if c = '\r' then "\\r"
  else String.singleton c

/-- Escape a string for a JSON string literal. -/
def jsonEscape (s : String) : String :=
  String.join (s.data.map jsonEscapeChar)

mutual

/-- Model of `JSON.stringify` on the value universe: object keys keep
insertion order, as in JavaScript. -/
def jsonStringify : JsValue → String
  | .vNull => "null"
  | .vBool b => if b then "true" else "false"
  | .vNum n => toString n
  | .vStr s => "\"" ++ jsonEscape s ++ "\""
  | .vArr xs => "[" ++ jsonStringifyArr xs ++ "]"
  | .vObj fs => "\x7b" ++ jsonStringifyObj fs ++ "\x7d"

/-- Comma-separated serialization of array elements. -/
def jsonStringifyArr : List JsValue → String
  | [] => ""
  | [x] => jsonStringify x
  | x :: xs => jsonStringify x ++ "," ++ jsonStringifyArr xs

/-- Comma-separated serialization of object fields. -/
def jsonStringifyObj : List (String × JsValue) → String
  | [] => ""
  | [(k, v)] => "\"" ++ jsonEscape k ++ "\":" ++ jsonStringify v
  | (k, v) :: fs =>
      "\"" ++ jsonEscape k ++ "\":" ++ jsonStringify v ++ "," ++ jsonStringifyObj fs

end

/-- The construction-time inputs of `CdkResourceInitializer` that feed
observable computations (`lib/resource-initializer.ts` lines 13-22):
timeout duration for the Lambda function, optional memory size, and the
arbitrary config object. Networking and image inputs are opaque to every
claim and are omitted. -/
structure CdkResourceInitializerProps where
  fnTimeoutSeconds : Nat
  fnMemorySize : Option Nat
  config : JsValue

/-- JavaScript `a || b` on an optional number: `undefined` and `0` are
falsy, so both fall through to the default. -/
def jsOrNum (a : Option Nat) (b : Nat) : Nat :=
  match a with
  | none => b
  | some v => if v = 0 then b else v

/-- The hash of `lib/resource-initializer.ts` lines 56-58:
`createHash(md5).update(calculateFunctionHash(fn) + payload).digest(hex)`.
The digest itself is external (node `crypto`), so it is a parameter. -/
def physicalResIdHash (md5hex : String → String)
    (functionHash payload : String) : String :=
  md5hex (functionHash ++ payload)

/-- The observable outcome of one `CdkResourceInitializer` construction
(`lib/resource-initializer.ts` lines 29-93): the memory size and timeout
given to the `DockerImageFunction`, the serialized invocation payload,
the `Payload` parameter of the sdk call, the physical resource id, and
the fixed timeout of the `AwsCustomResource`. -/
structure CdkResourceInitializer where
  fnMemorySizeOut : Nat
  fnTimeoutSecondsOut : Nat
  functionName : String
  payload : String
  sdkCallPayload : String
  physicalResourceId : String
  customResourceTimeoutMinutes : Nat

/-- The constructor of `CdkResourceInitializer`. `md5hex` models the
node `crypto` md5 hex digest and `functionHash` the result of the
external `calculateFunctionHash(fn)` (a 32-character md5 hex string of
the deployed function artifact). -/
def mkInitializer (md5hex : String → String) (functionHash : String)
    (id : String) (props : CdkResourceInitializerProps) :
    CdkResourceInitializer :=
  let payload : String :=
    jsonStringify (.vObj [("params", .vObj [("config", props.config)])])
  let hash := physicalResIdHash md5hex functionHash payload
  { fnMemorySizeOut := jsOrNum props.fnMemorySize 128
    fnTimeoutSecondsOut := props.fnTimeoutSeconds
    functionName := id ++ "ResourceInitializerFn"
    payload := payload
    sdkCallPayload := payload
    physicalResourceId := id ++ "-AwsSdkCall-" ++ hash
    customResourceTimeoutMinutes := 10 }

/-- Demo config object carrying the secret reference, as built by
`demos/rds-init-example.ts`. -/
def configDemo : JsValue :=
  .vObj [("credsSecretName", .vStr "/demo/rds/creds/mysql-01")]

/-- Demo `params` object of the invocation payload. -/
def paramsDemo : JsValue := .vObj [("config", configDemo)]

/-- Demo invocation event `\x7b params: \x7b config: ... \x7d \x7d`. -/
def eventDemo : JsOpt := some (.vObj [("params", paramsDemo)])

/-- The secret id the demo event carries. -/
def sidDemo : JsOpt := some (.vStr "/demo/rds/creds/mysql-01")

/-- A resolved credential object with the three expected fields. -/
def secretValDemo : JsValue :=
  .vObj [("username", .vStr "admin"), ("password", .vStr "p"),
    ("host", .vStr "h")]

/-- A non-null query result set. -/
def resultsDemo : JsValue := .vArr [.vObj [("1", .vNum 1)]]

/-- Environment where every external effect succeeds. -/
def envResolvable : HandlerEnv where
  secretFetch := fun _ => .ok "secret-json"
  jsonParse := fun _ => .ok secretValDemo
  readScript := .ok "SELECT 1;"
  runQuery := fun _ _ => .ok resultsDemo

/-- Environment where the secret store reports a missing secret. -/
def envMissingSecret : HandlerEnv where
  secretFetch := fun _ =>
    .error ⟨"Secrets Manager cannot find the specified secret."⟩
  jsonParse := fun _ => .ok secretValDemo
  readScript := .ok "SELECT 1;"
  runQuery := fun _ _ => .ok resultsDemo

/-- Environment where the stored secret string is malformed JSON. -/
def envMalformedSecret : HandlerEnv where
  secretFetch := fun _ => .ok "not-json"
  jsonParse := fun _ => .error ⟨"Unexpected token o in JSON at position 1"⟩
  readScript := .ok "SELECT 1;"
  runQuery := fun _ _ => .ok resultsDemo

/-- Environment where the secret store fails with an error object whose
message is the empty string. -/
def envEmptyMessage : HandlerEnv where
  secretFetch := fun _ => .error ⟨""⟩
  jsonParse := fun _ => .ok secretValDemo
  readScript := .ok "SELECT 1;"
  runQuery := fun _ _ => .ok resultsDemo

/-- Recognizer for the connection-opening effect. -/
def isConnectEffect : Effect → Bool
  | .connected _ => true
  | _ => false

/-- Destructuring a non-null value reduces to the three field reads. -/
theorem jsDestructure3_of_ne (v : JsValue) (hv : v ≠ .vNull) (k1 k2 k3 : String) :
    jsDestructure3 v k1 k2 k3 = .ok (jsGet v k1, jsGet v k2, jsGet v k3) := by
  cases v <;> first | exact absurd rfl hv | rfl

/-- Concatenation of strings is injective when the first components have
equal length (`calculateFunctionHash` always yields a 32-character md5
hex digest, so the hash input determines both parts). -/
theorem string_append_inj (c c' p p' : String) (hlen : c.length = c'.length)
    (happ : c ++ p = c' ++ p') : c = c' ∧ p = p' := by
  have hdata : c.data ++ p.data = c'.data ++ p'.data := by
    have := congrArg String.data happ
    simpa [String.data_append] using this
  have hld : c.data.length = c'.data.length := hlen
  have := List.append_inj hdata hld
  exact ⟨congrArg String.mk this.1, congrArg String.mk this.2⟩

/-- C1: for every environment and invocation event, the handler's entry
point is a total function into the structured response type: its result
is either an OK response or an ERROR response carrying the failure and
its message — never a propagated exception. -/
theorem handler_never_throws (env : HandlerEnv) (e : JsOpt) :
    (∃ r, (handlerRun env e).1 = Response.ok r) ∨
    (∃ err, (handlerRun env e).1 = Response.error err err.message) := by
  unfold handlerRun
  dsimp only
  repeat' split
  all_goals
    first
      | exact Or.inl ⟨_, rfl⟩
      | exact Or.inr ⟨_, rfl⟩

/-- C3: the physical-resource-id hash is a pure function of the function
hash (the Handler artifact content) and the serialized payload: equal
pairs give equal tokens, and — since the function hash has the fixed
32-character length of an md5 hex digest and the digest function is
collision-free on its inputs — changing either part changes the token. -/
theorem physicalResIdHash_pure_function (md5hex : String → String)
    (hinj : Function.Injective md5hex)
    (c p c' p' : String) (hc : c.length = 32) (hc' : c'.length = 32) :
    (c = c' ∧ p = p' →
      physicalResIdHash md5hex c p = physicalResIdHash md5hex c' p') ∧
    ((c, p) ≠ (c', p') →
      physicalResIdHash md5hex c p ≠ physicalResIdHash md5hex c' p') := by
  constructor
  · rintro ⟨rfl, rfl⟩
    rfl
  · intro hne heq
    apply hne
    have hcat := hinj heq
    have hparts := string_append_inj c c' p p' (hc.trans hc'.symm) hcat
    rw [hparts.1, hparts.2]

/-- Witness for C3 at the identity digest and concrete 32-character
function hashes: equal inputs agree, distinct payloads disagree. -/
theorem physicalResIdHash_pure_function_witness :
    physicalResIdHash (fun s => s) "0123456789abcdef0123456789abcdef" "pay1" =
      physicalResIdHash (fun s => s) "0123456789abcdef0123456789abcdef" "pay1" ∧
    physicalResIdHash (fun s => s) "0123456789abcdef0123456789abcdef" "pay1" ≠
      physicalResIdHash (fun s => s) "0123456789abcdef0123456789abcdef" "pay2" :=
  ⟨(physicalResIdHash_pure_function (fun s => s) (fun _ _ h => h)
      "0123456789abcdef0123456789abcdef" "pay1"
      "0123456789abcdef0123456789abcdef" "pay1" (by decide) (by decide)).1
      ⟨rfl, rfl⟩,
   (physicalResIdHash_pure_function (fun s => s) (fun _ _ h => h)
      "0123456789abcdef0123456789abcdef" "pay1"
      "0123456789abcdef0123456789abcdef" "pay2" (by decide) (by decide)).2
      (by decide)⟩

/-- C6: the `Payload` parameter of the sdk call — and the payload the
hash covers — is exactly the JSON serialization of
`\x7b params: \x7b config: props.config \x7d \x7d`, with the config
object forwarded verbatim. -/
theorem payload_is_config_serialization (md5hex : String → String)
    (functionHash id : String) (props : CdkResourceInitializerProps) :
    (mkInitializer md5hex functionHash id props).sdkCallPayload =
      jsonStringify (.vObj [("params", .vObj [("config", props.config)])]) ∧
    (mkInitializer md5hex functionHash id props).payload =
      jsonStringify (.vObj [("params", .vObj [("config", props.config)])]) :=
  ⟨rfl, rfl⟩

/-- C8 (amended): an unspecified memory size defaults to 128, and a
specified nonzero memory size is used as given; a specified value of 0
is replaced by the default (see the counterexample). -/
theorem fnMemorySize_default_and_override (md5hex : String → String)
    (functionHash id : String) (props : CdkResourceInitializerProps) :
    (props.fnMemorySize = none →
      (mkInitializer md5hex functionHash id props).fnMemorySizeOut = 128) ∧
    (∀ v, props.fnMemorySize = some v → v ≠ 0 →
      (mkInitializer md5hex functionHash id props).fnMemorySizeOut = v) := by
  constructor
  · intro h
    simp [mkInitializer, jsOrNum, h]
  · intro v h hv
    simp [mkInitializer, jsOrNum, h, hv]

/-- Witness for C8: default applies when unspecified, and 256 is used
when specified. -/
theorem fnMemorySize_default_and_override_witness :
    (mkInitializer (fun s => s) "h" "Demo"
      ⟨120, none, JsValue.vNull⟩).fnMemorySizeOut = 128 ∧
    (mkInitializer (fun s => s) "h" "Demo"
      ⟨120, some 256, JsValue.vNull⟩).fnMemorySizeOut = 256 :=
  ⟨(fnMemorySize_default_and_override (fun s => s) "h" "Demo"
      ⟨120, none, JsValue.vNull⟩).1 rfl,
   (fnMemorySize_default_and_override (fun s => s) "h" "Demo"
      ⟨120, some 256, JsValue.vNull⟩).2 256 rfl (by decide)⟩

/-- C8 counterexample: with memory size explicitly specified as 0, the
deployed value is 128, not the specified 0. -/
theorem fnMemorySize_zero_counterexample :
    (⟨120, some 0, JsValue.vNull⟩ : CdkResourceInitializerProps).fnMemorySize
      = some 0 ∧
    (mkInitializer (fun s => s) "h" "Demo"
      ⟨120, some 0, JsValue.vNull⟩).fnMemorySizeOut ≠ 0 :=
  ⟨rfl, by decide⟩

/-- C9: an explicit memory size of 0 is falsy under JavaScript `||`, so
the function is deployed with the default 128. -/
theorem fnMemorySize_zero_defaults (md5hex : String → String)
    (functionHash id : String) (t : Nat) (cfg : JsValue) :
    (mkInitializer md5hex functionHash id
      ⟨t, some 0, cfg⟩).fnMemorySizeOut = 128 := rfl

/-- C10: the custom resource's own timeout is the constant 10 minutes,
for every construction and in particular independent of the `fnTimeout`
supplied for the Lambda function. -/
theorem customResource_timeout_fixed (md5hex : String → String)
    (functionHash id : String) (props : CdkResourceInitializerProps) :
    (mkInitializer md5hex functionHash id props).customResourceTimeoutMinutes
      = 10 ∧
    (mkInitializer md5hex functionHash id props).fnTimeoutSecondsOut
      = props.fnTimeoutSeconds :=
  ⟨rfl, rfl⟩

/-- C2: every secret-resolution failure — the secret-store SDK call
failing (missing secret, access denied) or `JSON.parse` throwing on the
stored secret string — is caught and reported through the one structured
ERROR path, `Response.error err err.message`, indistinguishable from any
other failure. -/
theorem secret_failures_uniform (env : HandlerEnv)
    (e params config sid : JsOpt) (err : JsError)
    (hp : jsMember e "params" = .ok params)
    (hc : jsMember params "config" = .ok config)
    (hs : jsMember config "credsSecretName" = .ok sid)
    (hfail : env.secretFetch sid = .error err ∨
      ∃ raw, env.secretFetch sid = .ok raw ∧ env.jsonParse raw = .error err) :
    handlerRun env e =
      (Response.error err err.message, [.secretFetched sid]) := by
  unfold handlerRun
  rcases hfail with h | ⟨raw, h1, h2⟩
  · simp only [hp, hc, hs, h]
  · simp only [hp, hc, hs, h1, h2]

/-- Witness for C2: a missing secret and a malformed stored secret
string both yield the same structured ERROR response shape. -/
theorem secret_failures_uniform_witness :
    handlerRun envMissingSecret eventDemo =
      (Response.error ⟨"Secrets Manager cannot find the specified secret."⟩
        "Secrets Manager cannot find the specified secret.",
        [.secretFetched sidDemo]) ∧
    handlerRun envMalformedSecret eventDemo =
      (Response.error ⟨"Unexpected token o in JSON at position 1"⟩
        "Unexpected token o in JSON at position 1",
        [.secretFetched sidDemo]) :=
  ⟨secret_failures_uniform envMissingSecret eventDemo
      (some paramsDemo) (some configDemo) sidDemo
      ⟨"Secrets Manager cannot find the specified secret."⟩
      rfl rfl rfl (Or.inl rfl),
   secret_failures_uniform envMalformedSecret eventDemo
      (some paramsDemo) (some configDemo) sidDemo
      ⟨"Unexpected token o in JSON at position 1"⟩
      rfl rfl rfl (Or.inr ⟨"not-json", rfl, rfl⟩)⟩

/-- C4: when the config carries a resolvable secret reference decoding
to an object with username, password and host, the bundled script is
read, and the query completes without error, the handler returns status
OK carrying exactly the database client result set, which is non-null. -/
theorem handler_ok_on_success (env : HandlerEnv)
    (e params config sid : JsOpt) (raw script : String)
    (secretVal r un pw ho : JsValue)
    (hp : jsMember e "params" = .ok params)
    (hc : jsMember params "config" = .ok config)
    (hs : jsMember config "credsSecretName" = .ok sid)
    (hf : env.secretFetch sid = .ok raw)
    (hj : env.jsonParse raw = .ok secretVal)
    (hun : jsGet secretVal "username" = some un)
    (hpw : jsGet secretVal "password" = some pw)
    (hho : jsGet secretVal "host" = some ho)
    (hscript : env.readScript = .ok script)
    (hq : env.runQuery ⟨some ho, some un, some pw, true⟩ script = .ok r)
    (hr : r ≠ JsValue.vNull) :
    (handlerRun env e).1 = Response.ok r ∧ r ≠ JsValue.vNull := by
  refine ⟨?_, hr⟩
  have hnn : secretVal ≠ JsValue.vNull := by
    intro hn
    rw [hn] at hun
    simp [jsGet] at hun
  unfold handlerRun
  simp only [hp, hc, hs, hf, hj, jsDestructure3_of_ne secretVal hnn,
    hun, hpw, hho, hscript, hq]

/-- Witness for C4 on the all-success demo environment. -/
theorem handler_ok_on_success_witness :
    (handlerRun envResolvable eventDemo).1 = Response.ok resultsDemo ∧
    resultsDemo ≠ JsValue.vNull :=
  handler_ok_on_success envResolvable eventDemo
    (some paramsDemo) (some configDemo) sidDemo "secret-json" "SELECT 1;"
    secretValDemo resultsDemo (.vStr "admin") (.vStr "p") (.vStr "h")
    rfl rfl rfl rfl rfl rfl rfl rfl rfl rfl
    (fun hx => JsValue.noConfusion hx)

/-- C5 (amended): for an unresolvable secret reference the handler
returns an ERROR response whose message equals the underlying failure
object's message — hence it is non-empty exactly when the secret store's
reported message is non-empty. -/
theorem unresolvable_secret_error_response (env : HandlerEnv)
    (e params config sid : JsOpt) (err : JsError)
    (hp : jsMember e "params" = .ok params)
    (hc : jsMember params "config" = .ok config)
    (hs : jsMember config "credsSecretName" = .ok sid)
    (hf : env.secretFetch sid = .error err) :
    (handlerRun env e).1 = Response.error err err.message := by
  unfold handlerRun
  simp only [hp, hc, hs, hf]

/-- Witness for the amended C5 on the missing-secret environment. -/
theorem unresolvable_secret_error_response_witness :
    (handlerRun envMissingSecret eventDemo).1 =
      Response.error ⟨"Secrets Manager cannot find the specified secret."⟩
        "Secrets Manager cannot find the specified secret." :=
  unresolvable_secret_error_response envMissingSecret eventDemo
    (some paramsDemo) (some configDemo) sidDemo
    ⟨"Secrets Manager cannot find the specified secret."⟩ rfl rfl rfl rfl

/-- C5 counterexample: with an unresolvable secret whose failure object
carries an empty message, the handler returns status ERROR with message
equal to the empty string, so the message is not always non-empty. -/
theorem unresolvable_secret_empty_message :
    (handlerRun envEmptyMessage eventDemo).1 = Response.error ⟨""⟩ "" := rfl

/-- C7: whenever the secret resolves (the SDK call succeeds and the
stored string parses to a destructurable value), the handler opens
exactly one database connection, configured with the resolved host,
username and password and with multi-statement execution enabled —
whatever happens afterwards. -/
theorem one_connection_per_invocation (env : HandlerEnv)
    (e params config sid : JsOpt) (raw : String) (secretVal : JsValue)
    (hp : jsMember e "params" = .ok params)
    (hc : jsMember params "config" = .ok config)
    (hs : jsMember config "credsSecretName" = .ok sid)
    (hf : env.secretFetch sid = .ok raw)
    (hj : env.jsonParse raw = .ok secretVal)
    (hnn : secretVal ≠ JsValue.vNull) :
    (handlerRun env e).2.filter isConnectEffect =
      [Effect.connected ⟨jsGet secretVal "host", jsGet secretVal "username",
        jsGet secretVal "password", true⟩] := by
  unfold handlerRun
  simp only [hp, hc, hs, hf, hj, jsDestructure3_of_ne secretVal hnn]
  cases henv : env.readScript with
  | error err => simp [isConnectEffect, List.filter]
  | ok script =>
    cases hq : env.runQuery
        ⟨jsGet secretVal "host", jsGet secretVal "username",
          jsGet secretVal "password", true⟩ script with
    | error err => simp [hq, isConnectEffect, List.filter]
    | ok r => simp [hq, isConnectEffect, List.filter]

/-- Witness for C7 on the all-success demo environment. -/
theorem one_connection_per_invocation_witness :
    (handlerRun envResolvable eventDemo).2.filter isConnectEffect =
      [Effect.connected ⟨some (JsValue.vStr "h"), some (JsValue.vStr "admin"),
        some (JsValue.vStr "p"), true⟩] :=
  one_connection_per_invocation envResolvable eventDemo
    (some paramsDemo) (some configDemo) sidDemo "secret-json" secretValDemo
    rfl rfl rfl rfl rfl (fun hx => JsValue.noConfusion hx)

end RdsInit
